import Mathlib

/-!
# dbtrans: connection registry and transaction-wrapped Exec / QueryFetch

A shallow embedding of `src/db.go`.

* The package-level map `dbmap` is threaded explicitly as a `Registry`.
* The `database/sql` collaborator is an oracle: a handle (`DB`) carries the answer of
  `Ping` and `Begin`, a transaction (`Tx`) the answers of `Query`, `Exec` and `Commit`,
  a result set (`SqlRows`) the answers of `Columns`, `Next`/`Scan`, `Close` and `Err`.
  Every call made on the collaborator (and on the logger) is recorded, in order, in a
  trace of `Event`s, so that "Rollback was called" or "Commit was never called" are
  statements about the trace.
* A Go run-time panic is an explicit outcome (`Outcome.panicked`).
* Calls are sequential: the reader/writer lock `mu` is not modelled.
* Statements are Lean strings, i.e. valid UTF-8 text.
* The receiver of `QueryFetch` and `Exec` is a non-nil `*DT`, passed by value.
-/

namespace Dbtrans

/-! ## Data model -/

/-- Go `error` values, identified by their message; `none : Option Err` is the nil error. -/
abbrev Err := String

/-- Bound parameter values (`interface{}` arguments); the package never inspects them. -/
inductive Arg where
  | int (i : Int)
  | text (s : String)
  | null
deriving DecidableEq, Repr

/-- Go `type Rows struct { Colname string; Colvals []string }`. -/
structure Rows where
  Colname : String
  Colvals : List String
deriving DecidableEq, Repr

/-- Go `type DT struct { driver string }`. -/
structure DT where
  driver : String
deriving DecidableEq, Repr

/-- Answers of one `*sql.Rows`: `Columns()`, then one entry of `scans` per row for which
`Next()` reports true (the outcome of `Scan` on that row: the text values stored in the
destinations, or the scan error), then `Close()` and `Err()`. -/
structure SqlRows where
  columns : Except Err (List String)
  scans : List (Except Err (List String))
  closeErr : Option Err
  iterErr : Option Err

/-- Answer of one `sql.Result`: `RowsAffected()`. -/
structure SqlResult where
  rowsAffected : Except Err Int

/-- Answers of one `*sql.Tx`. The variadic argument list is `none` for a nil slice. -/
structure Tx where
  Query : String → Option (List Arg) → Except Err SqlRows
  Exec : String → Option (List Arg) → Except Err SqlResult
  Commit : Option Err

/-- Answers of one `*sql.DB` handle. -/
structure DB where
  Ping : Option Err
  Begin : Except Err Tx

/-- The package-level `dbmap map[string]*sql.DB`. -/
abbrev Registry := String → Option DB

/-- Go `dbmap[drivername] = c`. -/
def Registry.insert (dbmap : Registry) (drivername : String) (c : DB) : Registry :=
  fun k => if k = drivername then some c else dbmap k

/-- Calls made on the collaborators, in program order. -/
inductive Event where
  | sqlOpen (drivername dsn : String)
  | setMaxOpenConns (n : Int)
  | setMaxIdleConns (n : Int)
  | ping
  | begin
  | txQuery (sqlstmt : String) (args : Option (List Arg))
  | txExec (sqlstmt : String) (args : Option (List Arg))
  | columns
  | next
  | scan
  | close
  | rowsErr
  | rowsAffected
  | commit
  | rollback
  | log (msg : List String)
deriving DecidableEq, Repr

/-- How a Go call ends: it returns its results, or it panics. -/
inductive Outcome (α : Type) where
  | returned (v : α)
  | panicked (msg : String)
deriving DecidableEq, Repr

/-- The observable effect of one call: the registry afterwards, the collaborator calls made,
and how the call ended. -/
structure Run (α : Type) where
  dbmap : Registry
  trace : List Event
  outcome : Outcome α

/-! ## strings.Fields -/

/-- Go `unicode.IsSpace`: the Latin-1 spaces are listed explicitly, above Latin-1 the
`White_Space` property decides. -/
def isSpace (c : Char) : Bool :=
  let r := c.toNat
  if r ≤ 0xFF then
    r = 0x09 || r = 0x0A || r = 0x0B || r = 0x0C || r = 0x0D || r = 0x20 || r = 0x85 || r = 0xA0
  else
    r = 0x1680 || (0x2000 ≤ r && r ≤ 0x200A) || r = 0x2028 || r = 0x2029 || r = 0x202F
      || r = 0x205F || r = 0x3000

/-- Scanning loop of `strings.Fields`: `cur` is the field being read, in reverse. -/
def fieldsAux : List Char → List Char → List (List Char)
  | [], cur => if cur.isEmpty then [] else [cur.reverse]
  | c :: cs, cur =>
    if isSpace c then
      if cur.isEmpty then fieldsAux cs [] else cur.reverse :: fieldsAux cs []
    else fieldsAux cs (c :: cur)

/-- Go `strings.Fields`: the maximal runs of non-space characters, in order. -/
def Fields (s : String) : List String :=
  (fieldsAux s.data []).map String.mk

/-- The `case "SELECT", "SEL", "select", "sel":` clause of both switches. -/
def isReadKeyword (tok : String) : Bool :=
  tok = "SELECT" || tok = "SEL" || tok = "select" || tok = "sel"

/-! ## Open -/

/-- Go `Open(drivername, dsn, cnum)`; `sqlOpen` is the answer of `sql.Open`. -/
def Open (sqlOpen : String → String → Except Err DB) (dbmap : Registry)
    (drivername dsn : String) (cnum : Int) : Run (Option DT × Option Err) :=
  let dt : DT := ⟨drivername⟩
  match dbmap drivername with
  | some c => ⟨dbmap, [.ping], .returned (some dt, c.Ping)⟩
  | none =>
    match sqlOpen drivername dsn with
    | .error err =>
      ⟨dbmap, [.sqlOpen drivername dsn, .log ["Cannot open connection to the database\n"]],
        .returned (none, some err)⟩
    | .ok c =>
      ⟨dbmap.insert drivername c,
        [.sqlOpen drivername dsn, .setMaxOpenConns cnum, .setMaxIdleConns cnum, .ping],
        .returned (some dt, c.Ping)⟩

/-! ## QueryFetch -/

/-- Contents of `vals` after `rs.Scan(v...)`: `vals` has `k` slots, initially empty strings,
and slot `i` receives the `i`-th scanned text value. -/
def scanVals (k : Nat) (scanned : List String) : List String :=
  (List.range k).map (fun i => scanned.getD i "")

/-- Go `cf := make([]Rows, len(cols)); for m := 0; m < len(cols); m++ { cf[m].Colname = cols[m] }`. -/
def initCols (cols : List String) : List Rows :=
  (List.range cols.length).foldl
    (fun cf m => cf.modify (fun r => { r with Colname := cols.getD m "" }) m)
    (List.replicate cols.length ⟨"", []⟩)

/-- Go `for m := 0; m < len(cols); m++ { cf[m].Colvals = append(cf[m].Colvals, vals[m]) }`. -/
def appendRow (k : Nat) (cf : List Rows) (vals : List String) : List Rows :=
  (List.range k).foldl
    (fun cf m => cf.modify (fun r => { r with Colvals := r.Colvals ++ [vals.getD m ""] }) m)
    cf

/-- The `for rs.Next() { ... }` loop: the calls it makes and either the filled columns or
the scan error it returns with. -/
def fetchRows (k : Nat) : List (Except Err (List String)) → List Rows →
    List Event × Except Err (List Rows)
  | [], cf => ([.next], .ok cf)
  | .error err :: _, _ => ([.next, .scan, .log ["Error scanning rows:"]], .error err)
  | .ok scanned :: rest, cf =>
    let r := fetchRows k rest (appendRow k cf (scanVals k scanned))
    (.next :: .scan :: r.1, r.2)

/-- The `switch args` of QueryFetch: `tx.Query(sqlstmt)` for nil arguments,
`tx.Query(sqlstmt, args...)` otherwise. -/
def switchQuery (tx : Tx) (sqlstmt : String) (args : Option (List Arg)) : Except Err SqlRows :=
  match args with
  | none => tx.Query sqlstmt none
  | some a => tx.Query sqlstmt (some a)

/-- Go `(dt *DT) QueryFetch(sqlstmt, args...)`; the payload is `none` for a nil slice. -/
def QueryFetch (dbmap : Registry) (dt : DT) (sqlstmt : String) (args : Option (List Arg)) :
    Run (Option (List Rows) × Option Err) :=
  match dbmap dt.driver with
  | none => ⟨dbmap, [.log ["Connection not open.."]], .returned (none, some "Connection not open..")⟩
  | some c =>
    match c.Begin with
    | .error err => ⟨dbmap, [.begin, .log ["Error in Begin Transaction"]], .returned (none, some err)⟩
    | .ok tx =>
      match (Fields sqlstmt)[0]? with
      | none => ⟨dbmap, [.begin], .panicked "runtime error: index out of range [0] with length 0"⟩
      | some tok =>
        if isReadKeyword tok then
          match switchQuery tx sqlstmt args with
          | .error err =>
            ⟨dbmap, [.begin, .txQuery sqlstmt args,
                .log ["Error executing the query(tx.Query):", sqlstmt, err], .rollback],
              .returned (none, some err)⟩
          | .ok rs =>
            match rs.columns with
            | .error err =>
              ⟨dbmap, [.begin, .txQuery sqlstmt args, .columns, .log ["Error returning query metadata"]],
                .returned (none, some err)⟩
            | .ok cols =>
              let pre : List Event := [.begin, .txQuery sqlstmt args, .columns]
              match fetchRows cols.length rs.scans (initCols cols) with
              | (evs, .error err) => ⟨dbmap, pre ++ evs, .returned (none, some err)⟩
              | (evs, .ok cf) =>
                match rs.closeErr with
                | some err =>
                  ⟨dbmap, pre ++ evs ++ [.close, .log ["Error closing the result set"]],
                    .returned (none, some err)⟩
                | none =>
                  match rs.iterErr with
                  | some err =>
                    ⟨dbmap, pre ++ evs ++ [.close, .rowsErr, .log ["Error iterating the rows"]],
                      .returned (none, some err)⟩
                  | none =>
                    match tx.Commit with
                    | some err =>
                      ⟨dbmap, pre ++ evs ++ [.close, .rowsErr, .commit, .log ["Error closing the result set"]],
                        .returned (none, some err)⟩
                    | none =>
                      ⟨dbmap, pre ++ evs ++ [.close, .rowsErr, .commit], .returned (some cf, none)⟩
        else
          ⟨dbmap, [.begin, .log ["Invalid method call, use DBExecFetch"]],
            .returned (none, some "Invalid method call, use DBExecFetch")⟩

/-! ## Exec -/

/-- The `switch args` of Exec: `tx.Exec(sqlstmt)` for nil arguments,
`tx.Exec(sqlstmt, args...)` otherwise. -/
def switchExec (tx : Tx) (sqlstmt : String) (args : Option (List Arg)) : Except Err SqlResult :=
  match args with
  | none => tx.Exec sqlstmt none
  | some a => tx.Exec sqlstmt (some a)

/-- Go `(dt *DT) Exec(sqlstmt, args...)`. -/
def Exec (dbmap : Registry) (dt : DT) (sqlstmt : String) (args : Option (List Arg)) :
    Run (Int × Option Err) :=
  match dbmap dt.driver with
  | none => ⟨dbmap, [.log ["Connection not open.."]], .returned (0, some "Connection not open..")⟩
  | some c =>
    match c.Begin with
    | .error err => ⟨dbmap, [.begin, .log ["Error in Begin Transaction"]], .returned (0, some err)⟩
    | .ok tx =>
      match (Fields sqlstmt)[0]? with
      | none => ⟨dbmap, [.begin], .panicked "runtime error: index out of range [0] with length 0"⟩
      | some tok =>
        if isReadKeyword tok then
          ⟨dbmap, [.begin, .log ["Invalid method call on Select, use DBQueryFetch"]],
            .returned (0, some "Invalid method call on Select, use DBQueryFetch")⟩
        else
          match switchExec tx sqlstmt args with
          | .error err =>
            ⟨dbmap, [.begin, .txExec sqlstmt args,
                .log ["Error executing the query(tx.Exec):", sqlstmt, err], .rollback],
              .returned (0, some err)⟩
          | .ok ra =>
            match ra.rowsAffected with
            | .error err =>
              ⟨dbmap, [.begin, .txExec sqlstmt args, .rowsAffected, .log ["Error in fetching rows affected"]],
                .returned (0, some err)⟩
            | .ok numRows =>
              match tx.Commit with
              | some err =>
                ⟨dbmap, [.begin, .txExec sqlstmt args, .rowsAffected, .commit,
                    .log ["Error closing the result set"]],
                  .returned (0, some err)⟩
              | none =>
                ⟨dbmap, [.begin, .txExec sqlstmt args, .rowsAffected, .commit],
                  .returned (numRows, none)⟩

/-! ## Sample collaborators -/

/-- A result set with columns a, b and two rows. -/
def sampleRows : SqlRows :=
  ⟨.ok ["a", "b"], [.ok ["1", "x"], .ok ["2", "y"]], none, none⟩

/-- A transaction on which every operation succeeds. -/
def goodTx : Tx :=
  ⟨fun _ _ => .ok sampleRows, fun _ _ => .ok ⟨.ok 1⟩, none⟩

/-- A transaction whose statement execution fails. -/
def failTx : Tx :=
  ⟨fun _ _ => .error "no such table", fun _ _ => .error "no such table", none⟩

/-- A reachable handle whose transactions succeed. -/
def goodDB : DB := ⟨none, .ok goodTx⟩

/-- A reachable handle whose statement executions fail. -/
def failDB : DB := ⟨none, .ok failTx⟩

/-- A handle whose liveness ping fails. -/
def deadDB : DB := ⟨some "unreachable", .error "unreachable"⟩

/-- The registry after `init()`. -/
def emptyReg : Registry := fun _ => none

/-- A registry in which only "sqlite3" is registered. -/
def sampleReg : Registry := emptyReg.insert "sqlite3" goodDB

/-- A registry whose "sqlite3" handle fails every statement. -/
def failReg : Registry := emptyReg.insert "sqlite3" failDB

/-- An answer of `sql.Open`: "sqlite3" connects, "dead" connects but is unreachable,
every other driver name is unknown. -/
def sampleOpen : String → String → Except Err DB :=
  fun drivername _ =>
    if drivername = "sqlite3" then .ok goodDB
    else if drivername = "dead" then .ok deadDB
    else .error "sql: unknown driver"

/-! ## Derived notions used in the statements -/

/-- The columns after the rows of a list have been appended one after the other. -/
def appendAll (k : Nat) (cf : List Rows) (rows : List (List String)) : List Rows :=
  rows.foldl (fun cf r => appendRow k cf (scanVals k r)) cf

/-- Case folding used by the specification's comparison: every character is replaced by its
lower-case form. -/
def foldCase (tok : String) : String := String.mk (tok.data.map Char.toLower)

/-- Classification as the specification words it: the first token equals "select" or "sel"
under case folding. -/
def isReadKeywordFolded (tok : String) : Bool :=
  foldCase tok = "select" || foldCase tok = "sel"

/-- A transaction was finalised in a trace when Commit or Rollback was called. -/
def finalised (tr : List Event) : Bool := tr.contains .commit || tr.contains .rollback

/-- A transaction whose statements execute but whose results cannot be read: column
introspection and the affected-row count both fail. -/
def brokenTx : Tx :=
  ⟨fun _ _ => .ok ⟨.error "no metadata", [], none, none⟩, fun _ _ => .ok ⟨.error "no count"⟩, none⟩

/-- A registry whose "sqlite3" handle hands out `brokenTx`. -/
def brokenReg : Registry := emptyReg.insert "sqlite3" ⟨none, .ok brokenTx⟩

/-! ## Helper lemmas -/

theorem switchQuery_eq (tx : Tx) (sqlstmt : String) (args : Option (List Arg)) :
    switchQuery tx sqlstmt args = tx.Query sqlstmt args := by
  cases args <;> rfl

theorem switchExec_eq (tx : Tx) (sqlstmt : String) (args : Option (List Arg)) :
    switchExec tx sqlstmt args = tx.Exec sqlstmt args := by
  cases args <;> rfl

theorem foldl_modify_getElem? {α : Type} (g : Nat → α → α) (n : Nat) (l : List α) (i : Nat) :
    ((List.range n).foldl (fun cf m => cf.modify (g m) m) l)[i]? =
      if i < n then (l[i]?).map (g i) else l[i]? := by
  induction n with
  | zero => simp
  | succ n ih =>
    rw [List.range_succ, List.foldl_append]
    simp only [List.foldl_cons, List.foldl_nil]
    rw [List.getElem?_modify, ih]
    by_cases h1 : i < n
    · have h2 : n ≠ i := by omega
      have h3 : i < n + 1 := by omega
      simp [h1, h2, h3]
    · by_cases h2 : n = i
      · subst h2
        simp
      · have h3 : ¬ i < n + 1 := by omega
        simp [h1, h2, h3]

theorem foldl_modify_length {α : Type} (g : Nat → α → α) (n : Nat) (l : List α) :
    ((List.range n).foldl (fun cf m => cf.modify (g m) m) l).length = l.length := by
  induction n with
  | zero => simp
  | succ n ih =>
    rw [List.range_succ, List.foldl_append]
    simp [ih]

theorem initCols_length (cols : List String) : (initCols cols).length = cols.length := by
  unfold initCols
  rw [foldl_modify_length]
  simp

theorem initCols_getElem? (cols : List String) (m : Nat) (h : m < cols.length) :
    (initCols cols)[m]? = some ⟨cols.getD m "", []⟩ := by
  unfold initCols
  rw [foldl_modify_getElem?]
  simp [h]

theorem appendRow_length (k : Nat) (cf : List Rows) (vals : List String) :
    (appendRow k cf vals).length = cf.length := by
  unfold appendRow
  rw [foldl_modify_length]

theorem appendRow_getElem? (k : Nat) (cf : List Rows) (vals : List String) (m : Nat) (h : m < k) :
    (appendRow k cf vals)[m]? =
      (cf[m]?).map (fun r => { r with Colvals := r.Colvals ++ [vals.getD m ""] }) := by
  unfold appendRow
  rw [foldl_modify_getElem?]
  simp [h]

theorem scanVals_getD (k : Nat) (scanned : List String) (m : Nat) (h : m < k) :
    (scanVals k scanned).getD m "" = scanned.getD m "" := by
  unfold scanVals
  simp [List.getD_eq_getElem?_getD, h]

theorem scanVals_length (k : Nat) (scanned : List String) : (scanVals k scanned).length = k := by
  simp [scanVals]

theorem appendAll_getElem? (k : Nat) (rows : List (List String)) (cf : List Rows) (m : Nat)
    (h : m < k) :
    (appendAll k cf rows)[m]? =
      (cf[m]?).map (fun r => { r with Colvals := r.Colvals ++ rows.map (fun v => v.getD m "") }) := by
  induction rows generalizing cf with
  | nil => simp [appendAll]
  | cons r rest ih =>
    have := ih (appendRow k cf (scanVals k r))
    simp only [appendAll, List.foldl_cons] at this ⊢
    rw [this, appendRow_getElem? k cf _ m h, scanVals_getD k r m h]
    cases cf[m]? <;> simp

theorem appendAll_length (k : Nat) (rows : List (List String)) (cf : List Rows) :
    (appendAll k cf rows).length = cf.length := by
  induction rows generalizing cf with
  | nil => simp [appendAll]
  | cons r rest ih =>
    have := ih (appendRow k cf (scanVals k r))
    simp only [appendAll, List.foldl_cons] at this ⊢
    rw [this, appendRow_length]

theorem fetchRows_ok (k : Nat) (scans : List (Except Err (List String))) (cf cf2 : List Rows)
    (evs : List Event) (h : fetchRows k scans cf = (evs, .ok cf2)) :
    ∃ rows : List (List String), scans = rows.map .ok ∧ cf2 = appendAll k cf rows := by
  induction scans generalizing cf evs with
  | nil =>
    refine ⟨[], rfl, ?_⟩
    simp [fetchRows] at h
    simp [appendAll, h.2]
  | cons s rest ih =>
    cases s with
    | error err => simp [fetchRows] at h
    | ok scanned =>
      simp only [fetchRows, Prod.mk.injEq] at h
      obtain ⟨rows, h1, h2⟩ := ih (appendRow k cf (scanVals k scanned)) _ (Prod.ext rfl h.2)
      exact ⟨scanned :: rows, by simp [h1], by simp [appendAll, h2]⟩

theorem fieldsAux_eq_nil (cs cur : List Char) :
    fieldsAux cs cur = [] ↔ cur = [] ∧ ∀ c ∈ cs, isSpace c = true := by
  induction cs generalizing cur with
  | nil => cases cur <;> simp [fieldsAux]
  | cons c cs ih =>
    by_cases hc : isSpace c = true
    · cases cur with
      | nil => simp [fieldsAux, hc, ih]
      | cons d ds => simp [fieldsAux, hc]
    · simp [fieldsAux, hc, ih]

theorem Fields_head_none (s : String) :
    (Fields s)[0]? = none ↔ ∀ c ∈ s.data, isSpace c = true := by
  unfold Fields
  cases h : fieldsAux s.data [] with
  | nil =>
    have := (fieldsAux_eq_nil s.data []).1 h
    simp only [List.map_nil, List.getElem?_nil, true_iff]
    exact this.2
  | cons a l =>
    have h2 : ¬ (fieldsAux s.data [] = []) := by simp [h]
    rw [fieldsAux_eq_nil] at h2
    simp at h2 ⊢
    exact h2

theorem QueryFetch_panicked (dbmap : Registry) (dt : DT) (sqlstmt : String)
    (args : Option (List Arg)) (msg : String)
    (h : (QueryFetch dbmap dt sqlstmt args).outcome = .panicked msg) :
    (Fields sqlstmt)[0]? = none := by
  unfold QueryFetch at h
  repeat (first | contradiction | assumption | split at h | simp at h)

theorem Exec_panicked (dbmap : Registry) (dt : DT) (sqlstmt : String)
    (args : Option (List Arg)) (msg : String)
    (h : (Exec dbmap dt sqlstmt args).outcome = .panicked msg) :
    (Fields sqlstmt)[0]? = none := by
  unfold Exec at h
  repeat (first | contradiction | assumption | split at h | simp at h)

theorem isReadKeyword_iff (tok : String) :
    isReadKeyword tok = true ↔ tok ∈ ["SELECT", "SEL", "select", "sel"] := by
  simp [isReadKeyword, or_assoc]

theorem isReadKeyword_false_iff (tok : String) :
    isReadKeyword tok = false ↔ tok ∉ ["SELECT", "SEL", "select", "sel"] := by
  simp [isReadKeyword, and_assoc]

/-! ## Claims -/

/-- Claim C1 (the code departs from it): a call whose transaction was begun is not always
finalised. On the registered driver "sqlite3", whose Begin succeeds, the invalid-operation
paths of Exec and QueryFetch, the column-metadata failure path of QueryFetch and the
row-count failure path of Exec all return after Begin without any call of Commit or
Rollback. -/
theorem early_returns_leave_tx_open :
    ((Exec sampleReg ⟨"sqlite3"⟩ "SELECT 1" none).trace
          = [.begin, .log ["Invalid method call on Select, use DBQueryFetch"]]
        ∧ finalised (Exec sampleReg ⟨"sqlite3"⟩ "SELECT 1" none).trace = false)
      ∧ ((QueryFetch sampleReg ⟨"sqlite3"⟩ "DELETE FROM t" none).trace
          = [.begin, .log ["Invalid method call, use DBExecFetch"]]
        ∧ finalised (QueryFetch sampleReg ⟨"sqlite3"⟩ "DELETE FROM t" none).trace = false)
      ∧ ((QueryFetch brokenReg ⟨"sqlite3"⟩ "SELECT a FROM t" none).trace
          = [.begin, .txQuery "SELECT a FROM t" none, .columns,
              .log ["Error returning query metadata"]]
        ∧ finalised (QueryFetch brokenReg ⟨"sqlite3"⟩ "SELECT a FROM t" none).trace = false)
      ∧ ((Exec brokenReg ⟨"sqlite3"⟩ "DELETE FROM t" none).trace
          = [.begin, .txExec "DELETE FROM t" none, .rowsAffected,
              .log ["Error in fetching rows affected"]]
        ∧ finalised (Exec brokenReg ⟨"sqlite3"⟩ "DELETE FROM t" none).trace = false) := by
  decide

/-- Claim C2 (the code departs from it): classification is not case-insensitive. The first
token of "Select 1" is "Select", which equals the read keyword "select" under case folding,
yet on the registered driver "sqlite3" QueryFetch rejects the statement as an invalid
operation and Exec does not reject it: it passes it to the driver's execution and commits.
Likewise the first token of "sEl 1" folds to "sel", QueryFetch rejects the statement and Exec
passes it to the driver's execution. -/
theorem classification_is_case_sensitive :
    ((Fields "Select 1")[0]? = some "Select" ∧ isReadKeywordFolded "Select" = true
        ∧ isReadKeyword "Select" = false
        ∧ (QueryFetch sampleReg ⟨"sqlite3"⟩ "Select 1" none).outcome
            = .returned (none, some "Invalid method call, use DBExecFetch")
        ∧ (Exec sampleReg ⟨"sqlite3"⟩ "Select 1" none).trace
            = [.begin, .txExec "Select 1" none, .rowsAffected, .commit]
        ∧ (Exec sampleReg ⟨"sqlite3"⟩ "Select 1" none).outcome = .returned (1, none))
      ∧ ((Fields "sEl 1")[0]? = some "sEl" ∧ isReadKeywordFolded "sEl" = true
        ∧ isReadKeyword "sEl" = false
        ∧ (QueryFetch sampleReg ⟨"sqlite3"⟩ "sEl 1" none).outcome
            = .returned (none, some "Invalid method call, use DBExecFetch")
        ∧ Event.txExec "sEl 1" none ∈ (Exec sampleReg ⟨"sqlite3"⟩ "sEl 1" none).trace) := by
  decide

/-- Claim C3: on a registered driver whose Begin succeeds, Exec on a statement whose first
whitespace-delimited token is SELECT, SEL, select or sel returns 0 with the invalid-operation
error, and neither the driver's statement execution nor Commit is ever called. -/
theorem Exec_rejects_read (dbmap : Registry) (dt : DT) (sqlstmt : String)
    (args : Option (List Arg)) (c : DB) (tx : Tx) (tok : String)
    (hreg : dbmap dt.driver = some c) (hbegin : c.Begin = .ok tx)
    (htok : (Fields sqlstmt)[0]? = some tok)
    (hread : tok ∈ ["SELECT", "SEL", "select", "sel"]) :
    (Exec dbmap dt sqlstmt args).outcome =
        .returned (0, some "Invalid method call on Select, use DBQueryFetch")
      ∧ (∀ s a, Event.txExec s a ∉ (Exec dbmap dt sqlstmt args).trace)
      ∧ Event.commit ∉ (Exec dbmap dt sqlstmt args).trace := by
  have hk := (isReadKeyword_iff tok).2 hread
  simp [Exec, hreg, hbegin, htok, hk]

/-- Witness of C3 on "SEL a FROM t" with bound parameters. -/
theorem Exec_rejects_read_witness :
    (Fields "SEL a FROM t")[0]? = some "SEL"
      ∧ (Exec sampleReg ⟨"sqlite3"⟩ "SEL a FROM t" (some [.int 1])).outcome =
          .returned (0, some "Invalid method call on Select, use DBQueryFetch")
      ∧ (∀ s a, Event.txExec s a ∉ (Exec sampleReg ⟨"sqlite3"⟩ "SEL a FROM t" (some [.int 1])).trace)
      ∧ Event.commit ∉ (Exec sampleReg ⟨"sqlite3"⟩ "SEL a FROM t" (some [.int 1])).trace :=
  ⟨by decide, Exec_rejects_read sampleReg ⟨"sqlite3"⟩ "SEL a FROM t" (some [.int 1]) goodDB goodTx
    "SEL" rfl rfl (by decide) (by decide)⟩

/-- Claim C4: on a registered driver whose Begin succeeds, QueryFetch on a statement that has
a first whitespace-delimited token which is not a read keyword returns the nil payload with
the invalid-operation error, and the driver's query is never called. -/
theorem QueryFetch_rejects_write (dbmap : Registry) (dt : DT) (sqlstmt : String)
    (args : Option (List Arg)) (c : DB) (tx : Tx) (tok : String)
    (hreg : dbmap dt.driver = some c) (hbegin : c.Begin = .ok tx)
    (htok : (Fields sqlstmt)[0]? = some tok)
    (hwrite : tok ∉ ["SELECT", "SEL", "select", "sel"]) :
    (QueryFetch dbmap dt sqlstmt args).outcome =
        .returned (none, some "Invalid method call, use DBExecFetch")
      ∧ (∀ s a, Event.txQuery s a ∉ (QueryFetch dbmap dt sqlstmt args).trace) := by
  have hk := (isReadKeyword_false_iff tok).2 hwrite
  simp [QueryFetch, hreg, hbegin, htok, hk]

/-- Witness of C4 on an INSERT statement. -/
theorem QueryFetch_rejects_write_witness :
    (Fields "INSERT INTO t VALUES (1)")[0]? = some "INSERT"
      ∧ (QueryFetch sampleReg ⟨"sqlite3"⟩ "INSERT INTO t VALUES (1)" none).outcome =
          .returned (none, some "Invalid method call, use DBExecFetch")
      ∧ (∀ s a, Event.txQuery s a
          ∉ (QueryFetch sampleReg ⟨"sqlite3"⟩ "INSERT INTO t VALUES (1)" none).trace) :=
  ⟨by decide, QueryFetch_rejects_write sampleReg ⟨"sqlite3"⟩ "INSERT INTO t VALUES (1)" none
    goodDB goodTx "INSERT" rfl rfl (by decide) (by decide)⟩

/-- Claim C5: whenever QueryFetch returns with a nil error, the driver produced a result set
with column names `cols` and successfully scanned rows `rows`, and the payload is a slice
`cf` with exactly one entry per column name; entry `m` carries the name `cols[m]` and the
values `r[m]` of the rows `r` in retrieval order, so every column holds as many values as
there are rows. -/
theorem QueryFetch_columns_transposed (dbmap : Registry) (dt : DT) (sqlstmt : String)
    (args : Option (List Arg)) (payload : Option (List Rows))
    (h : (QueryFetch dbmap dt sqlstmt args).outcome = .returned (payload, none)) :
    ∃ (c : DB) (tx : Tx) (rs : SqlRows) (cols : List String) (rows : List (List String))
      (cf : List Rows),
      dbmap dt.driver = some c ∧ c.Begin = .ok tx ∧ tx.Query sqlstmt args = .ok rs
        ∧ rs.columns = .ok cols ∧ rs.scans = rows.map .ok
        ∧ payload = some cf
        ∧ cf.length = cols.length
        ∧ (∀ m, m < cols.length →
            cf[m]? = some ⟨cols.getD m "", rows.map (fun r => r.getD m "")⟩)
        ∧ (∀ col ∈ cf, col.Colvals.length = rows.length) := by
  cases hreg : dbmap dt.driver with
  | none => simp [QueryFetch, hreg] at h
  | some c =>
  cases hbegin : c.Begin with
  | error e => simp [QueryFetch, hreg, hbegin] at h
  | ok tx =>
  cases htok : (Fields sqlstmt)[0]? with
  | none => simp [QueryFetch, hreg, hbegin, htok] at h
  | some tok =>
  cases hk : isReadKeyword tok with
  | false => simp [QueryFetch, hreg, hbegin, htok, hk] at h
  | true =>
  cases hq : tx.Query sqlstmt args with
  | error e => simp [QueryFetch, hreg, hbegin, htok, hk, switchQuery_eq, hq] at h
  | ok rs =>
  cases hcols : rs.columns with
  | error e => simp [QueryFetch, hreg, hbegin, htok, hk, switchQuery_eq, hq, hcols] at h
  | ok cols =>
  cases hfetch : fetchRows cols.length rs.scans (initCols cols) with
  | mk evs res =>
  cases res with
  | error e => simp [QueryFetch, hreg, hbegin, htok, hk, switchQuery_eq, hq, hcols, hfetch] at h
  | ok cf =>
  cases hclose : rs.closeErr with
  | some e =>
    simp [QueryFetch, hreg, hbegin, htok, hk, switchQuery_eq, hq, hcols, hfetch, hclose] at h
  | none =>
  cases hiter : rs.iterErr with
  | some e =>
    simp [QueryFetch, hreg, hbegin, htok, hk, switchQuery_eq, hq, hcols, hfetch, hclose,
      hiter] at h
  | none =>
  cases hcommit : tx.Commit with
  | some e =>
    simp [QueryFetch, hreg, hbegin, htok, hk, switchQuery_eq, hq, hcols, hfetch, hclose,
      hiter, hcommit] at h
  | none =>
    simp [QueryFetch, hreg, hbegin, htok, hk, switchQuery_eq, hq, hcols, hfetch, hclose,
      hiter, hcommit] at h
    obtain ⟨rows, hscans, hcf⟩ := fetchRows_ok _ _ _ _ _ hfetch
    have hget : ∀ m, m < cols.length →
        cf[m]? = some ⟨cols.getD m "", rows.map (fun r => r.getD m "")⟩ := by
      intro m hm
      rw [hcf, appendAll_getElem? _ _ _ _ hm, initCols_getElem? _ _ hm]
      simp
    have hlen : cf.length = cols.length := by
      rw [hcf, appendAll_length, initCols_length]
    refine ⟨c, tx, rs, cols, rows, cf, rfl, hbegin, hq, hcols, hscans, h.symm, hlen, hget, ?_⟩
    intro col hcol
    obtain ⟨m, hm, hmeq⟩ := List.getElem_of_mem hcol
    have h1 := hget m (hlen ▸ hm)
    rw [List.getElem?_eq_getElem hm, hmeq] at h1
    have h2 := Option.some.inj h1
    rw [h2]
    simp

/-- Witness of C5: the sample result set with columns a, b and rows (1, x), (2, y). -/
theorem QueryFetch_columns_transposed_witness :
    (QueryFetch sampleReg ⟨"sqlite3"⟩ "SELECT a, b FROM t" none).outcome
        = .returned (some [⟨"a", ["1", "2"]⟩, ⟨"b", ["x", "y"]⟩], none)
      ∧ ∃ (c : DB) (tx : Tx) (rs : SqlRows) (cols : List String) (rows : List (List String))
          (cf : List Rows),
          sampleReg "sqlite3" = some c ∧ c.Begin = .ok tx
            ∧ tx.Query "SELECT a, b FROM t" none = .ok rs
            ∧ rs.columns = .ok cols ∧ rs.scans = rows.map .ok
            ∧ some [(⟨"a", ["1", "2"]⟩ : Rows), ⟨"b", ["x", "y"]⟩] = some cf
            ∧ cf.length = cols.length
            ∧ (∀ m, m < cols.length →
                cf[m]? = some ⟨cols.getD m "", rows.map (fun r => r.getD m "")⟩)
            ∧ (∀ col ∈ cf, col.Colvals.length = rows.length) :=
  ⟨by decide, QueryFetch_columns_transposed sampleReg ⟨"sqlite3"⟩ "SELECT a, b FROM t" none
    (some [⟨"a", ["1", "2"]⟩, ⟨"b", ["x", "y"]⟩]) (by decide)⟩

/-- Claim C6: for a driver identifier absent from the registry, whatever the statement and
the parameters, QueryFetch returns the nil payload and Exec returns 0, each with the
"Connection not open.." error; the only collaborator call is the log entry (no Begin, no
statement lookup), and the registry is unchanged. -/
theorem unregistered_driver_fails (dbmap : Registry) (dt : DT) (sqlstmt : String)
    (args : Option (List Arg)) (hreg : dbmap dt.driver = none) :
    ((QueryFetch dbmap dt sqlstmt args).outcome = .returned (none, some "Connection not open..")
        ∧ (QueryFetch dbmap dt sqlstmt args).trace = [.log ["Connection not open.."]]
        ∧ (QueryFetch dbmap dt sqlstmt args).dbmap = dbmap)
      ∧ ((Exec dbmap dt sqlstmt args).outcome = .returned (0, some "Connection not open..")
        ∧ (Exec dbmap dt sqlstmt args).trace = [.log ["Connection not open.."]]
        ∧ (Exec dbmap dt sqlstmt args).dbmap = dbmap) := by
  simp [QueryFetch, Exec, hreg]

/-- Witness of C6: the driver "postgres" was never opened; the statement is empty, which on a
registered driver would fault. -/
theorem unregistered_driver_fails_witness :
    sampleReg "postgres" = none
      ∧ ((QueryFetch sampleReg ⟨"postgres"⟩ "" none).outcome
            = .returned (none, some "Connection not open..")
        ∧ (QueryFetch sampleReg ⟨"postgres"⟩ "" none).trace = [.log ["Connection not open.."]]
        ∧ (QueryFetch sampleReg ⟨"postgres"⟩ "" none).dbmap = sampleReg)
      ∧ ((Exec sampleReg ⟨"postgres"⟩ "" none).outcome
            = .returned (0, some "Connection not open..")
        ∧ (Exec sampleReg ⟨"postgres"⟩ "" none).trace = [.log ["Connection not open.."]]
        ∧ (Exec sampleReg ⟨"postgres"⟩ "" none).dbmap = sampleReg) :=
  ⟨rfl, unregistered_driver_fails sampleReg ⟨"postgres"⟩ "" none rfl⟩

/-- Claim C7: when the driver identifier is already registered, Open leaves the registry
unchanged, makes exactly one collaborator call, the Ping of the registered handle (no
connect, no pool-limit call), and returns a reference naming the driver together with that
ping result. -/
theorem Open_registered_idempotent (sqlOpen : String → String → Except Err DB)
    (dbmap : Registry) (drivername dsn : String) (cnum : Int) (c : DB)
    (hreg : dbmap drivername = some c) :
    (Open sqlOpen dbmap drivername dsn cnum).dbmap = dbmap
      ∧ (Open sqlOpen dbmap drivername dsn cnum).trace = [.ping]
      ∧ (Open sqlOpen dbmap drivername dsn cnum).outcome
          = .returned (some ⟨drivername⟩, c.Ping) := by
  simp [Open, hreg]

/-- Witness of C7: a second Open of "sqlite3" with another connection string and pool size. -/
theorem Open_registered_idempotent_witness :
    sampleReg "sqlite3" = some goodDB
      ∧ (Open sampleOpen sampleReg "sqlite3" "file:other.db" 9).dbmap = sampleReg
      ∧ (Open sampleOpen sampleReg "sqlite3" "file:other.db" 9).trace = [.ping]
      ∧ (Open sampleOpen sampleReg "sqlite3" "file:other.db" 9).outcome
          = .returned (some ⟨"sqlite3"⟩, none) :=
  ⟨rfl, Open_registered_idempotent sampleOpen sampleReg "sqlite3" "file:other.db" 9 goodDB rfl⟩

/-- Claim C8: on a registered driver whose Begin succeeds, when the driver's statement
execution fails (tx.Exec in Exec on a statement that is not a read keyword statement,
tx.Query in QueryFetch on a read keyword statement), the call returns the driver's error
with the empty payload, Rollback is called and Commit is not. -/
theorem execution_failure_rolls_back (dbmap : Registry) (dt : DT) (sqlstmt : String)
    (args : Option (List Arg)) (c : DB) (tx : Tx) (tok : String) (err : Err)
    (hreg : dbmap dt.driver = some c) (hbegin : c.Begin = .ok tx)
    (htok : (Fields sqlstmt)[0]? = some tok) :
    (tok ∉ ["SELECT", "SEL", "select", "sel"] → tx.Exec sqlstmt args = .error err →
        (Exec dbmap dt sqlstmt args).outcome = .returned (0, some err)
          ∧ Event.rollback ∈ (Exec dbmap dt sqlstmt args).trace
          ∧ Event.commit ∉ (Exec dbmap dt sqlstmt args).trace)
      ∧ (tok ∈ ["SELECT", "SEL", "select", "sel"] → tx.Query sqlstmt args = .error err →
        (QueryFetch dbmap dt sqlstmt args).outcome = .returned (none, some err)
          ∧ Event.rollback ∈ (QueryFetch dbmap dt sqlstmt args).trace
          ∧ Event.commit ∉ (QueryFetch dbmap dt sqlstmt args).trace) := by
  constructor
  · intro hwrite hfail
    have hk := (isReadKeyword_false_iff tok).2 hwrite
    simp [Exec, hreg, hbegin, htok, hk, switchExec_eq, hfail]
  · intro hread hfail
    have hk := (isReadKeyword_iff tok).2 hread
    simp [QueryFetch, hreg, hbegin, htok, hk, switchQuery_eq, hfail]

/-- Witness of C8: an INSERT into a missing table through Exec, and a SELECT from it through
QueryFetch. -/
theorem execution_failure_rolls_back_witness :
    ((Exec failReg ⟨"sqlite3"⟩ "INSERT INTO missing_table VALUES (1)" none).outcome
          = .returned (0, some "no such table")
        ∧ Event.rollback ∈ (Exec failReg ⟨"sqlite3"⟩ "INSERT INTO missing_table VALUES (1)" none).trace
        ∧ Event.commit ∉ (Exec failReg ⟨"sqlite3"⟩ "INSERT INTO missing_table VALUES (1)" none).trace)
      ∧ ((QueryFetch failReg ⟨"sqlite3"⟩ "SELECT a FROM missing_table" none).outcome
          = .returned (none, some "no such table")
        ∧ Event.rollback ∈ (QueryFetch failReg ⟨"sqlite3"⟩ "SELECT a FROM missing_table" none).trace
        ∧ Event.commit ∉ (QueryFetch failReg ⟨"sqlite3"⟩ "SELECT a FROM missing_table" none).trace) :=
  ⟨(execution_failure_rolls_back failReg ⟨"sqlite3"⟩ "INSERT INTO missing_table VALUES (1)" none
      failDB failTx "INSERT" "no such table" rfl rfl (by decide)).1 (by decide) rfl,
    (execution_failure_rolls_back failReg ⟨"sqlite3"⟩ "SELECT a FROM missing_table" none
      failDB failTx "SELECT" "no such table" rfl rfl (by decide)).2 (by decide) rfl⟩

/-- Claim C9: for a driver identifier absent from the registry, Open registers it exactly when
the driver's connect succeeds. When connect fails, Open returns the nil reference with the
error and the registry is unchanged. When connect succeeds, the identifier maps to the new
handle, every other entry is unchanged, and Open returns a reference naming the driver
together with the ping result, whatever that result is. -/
theorem Open_unregistered_registers_iff_connected
    (sqlOpen : String → String → Except Err DB) (dbmap : Registry)
    (drivername dsn : String) (cnum : Int) (hreg : dbmap drivername = none) :
    (∀ err, sqlOpen drivername dsn = .error err →
        (Open sqlOpen dbmap drivername dsn cnum).dbmap = dbmap
          ∧ (Open sqlOpen dbmap drivername dsn cnum).outcome = .returned (none, some err))
      ∧ (∀ c, sqlOpen drivername dsn = .ok c →
        (Open sqlOpen dbmap drivername dsn cnum).dbmap drivername = some c
          ∧ (∀ k, k ≠ drivername → (Open sqlOpen dbmap drivername dsn cnum).dbmap k = dbmap k)
          ∧ (Open sqlOpen dbmap drivername dsn cnum).outcome
              = .returned (some ⟨drivername⟩, c.Ping))
      ∧ (((Open sqlOpen dbmap drivername dsn cnum).dbmap drivername).isSome = true
          ↔ ∃ c, sqlOpen drivername dsn = .ok c) := by
  cases h : sqlOpen drivername dsn with
  | error err => simp [Open, hreg, h]
  | ok c =>
    simp [Open, hreg, h, Registry.insert]
    intro k hk
    simp [hk]

/-- Witness of C9: "dead" connects but its ping fails, so it is registered and the reference
comes with the ping error; "oracle" does not connect and is not registered. -/
theorem Open_unregistered_registers_iff_connected_witness :
    (sampleReg "dead" = none
        ∧ (Open sampleOpen sampleReg "dead" "host=db" 5).dbmap "dead" = some deadDB
        ∧ (∀ k, k ≠ "dead" → (Open sampleOpen sampleReg "dead" "host=db" 5).dbmap k = sampleReg k)
        ∧ (Open sampleOpen sampleReg "dead" "host=db" 5).outcome
            = .returned (some ⟨"dead"⟩, some "unreachable"))
      ∧ (sampleReg "oracle" = none
        ∧ (Open sampleOpen sampleReg "oracle" "host=db" 5).dbmap = sampleReg
        ∧ (Open sampleOpen sampleReg "oracle" "host=db" 5).outcome
            = .returned (none, some "sql: unknown driver")) :=
  ⟨⟨rfl, (Open_unregistered_registers_iff_connected sampleOpen sampleReg "dead" "host=db" 5
      rfl).2.1 deadDB rfl⟩,
    ⟨rfl, (Open_unregistered_registers_iff_connected sampleOpen sampleReg "oracle" "host=db" 5
      rfl).1 "sql: unknown driver" rfl⟩⟩

/-- Claim C10: the lookup `strings.Fields(sqlstmt)[0]` is in range exactly when the statement
has a character that is not white space. On a registered driver whose Begin succeeds, such a
statement never makes QueryFetch or Exec panic, while a statement made of white space only
(the empty statement included) makes both panic with an index out of range, the only
collaborator call made so far being Begin. -/
theorem first_token_in_range_iff_nonblank (dbmap : Registry) (dt : DT) (sqlstmt : String)
    (args : Option (List Arg)) (c : DB) (tx : Tx)
    (hreg : dbmap dt.driver = some c) (hbegin : c.Begin = .ok tx) :
    (((Fields sqlstmt)[0]?).isSome = true ↔ ∃ ch ∈ sqlstmt.data, isSpace ch = false)
      ∧ ((∃ ch ∈ sqlstmt.data, isSpace ch = false) →
          (∀ msg, (QueryFetch dbmap dt sqlstmt args).outcome ≠ .panicked msg)
            ∧ (∀ msg, (Exec dbmap dt sqlstmt args).outcome ≠ .panicked msg))
      ∧ ((∀ ch ∈ sqlstmt.data, isSpace ch = true) →
          ((QueryFetch dbmap dt sqlstmt args).outcome
                = .panicked "runtime error: index out of range [0] with length 0"
              ∧ (QueryFetch dbmap dt sqlstmt args).trace = [.begin])
            ∧ ((Exec dbmap dt sqlstmt args).outcome
                = .panicked "runtime error: index out of range [0] with length 0"
              ∧ (Exec dbmap dt sqlstmt args).trace = [.begin])) := by
  have key : (Fields sqlstmt)[0]? = none ↔ ∀ ch ∈ sqlstmt.data, isSpace ch = true :=
    Fields_head_none sqlstmt
  refine ⟨?_, ?_, ?_⟩
  · rw [← not_iff_not]
    simp only [Bool.not_eq_true, Option.not_isSome, Option.isNone_iff_eq_none, not_exists,
      not_and, Bool.not_eq_false]
    exact key
  · rintro ⟨ch, hch, hsp⟩
    have hne : ¬ ((Fields sqlstmt)[0]? = none) := by
      rw [key]
      intro hall
      rw [hall ch hch] at hsp
      exact Bool.noConfusion hsp
    exact ⟨fun msg h => hne (QueryFetch_panicked dbmap dt sqlstmt args msg h),
      fun msg h => hne (Exec_panicked dbmap dt sqlstmt args msg h)⟩
  · intro hall
    have hnone := key.2 hall
    simp [QueryFetch, Exec, hreg, hbegin, hnone]

/-- Witness of C10: a statement of blanks and a tab faults in both entry points after Begin,
and "SELECT 1" does not fault. -/
theorem first_token_in_range_iff_nonblank_witness :
    (((QueryFetch sampleReg ⟨"sqlite3"⟩ "  \t" none).outcome
            = .panicked "runtime error: index out of range [0] with length 0"
          ∧ (QueryFetch sampleReg ⟨"sqlite3"⟩ "  \t" none).trace = [.begin])
        ∧ ((Exec sampleReg ⟨"sqlite3"⟩ "  \t" none).outcome
            = .panicked "runtime error: index out of range [0] with length 0"
          ∧ (Exec sampleReg ⟨"sqlite3"⟩ "  \t" none).trace = [.begin]))
      ∧ ((∀ msg, (QueryFetch sampleReg ⟨"sqlite3"⟩ "SELECT 1" none).outcome ≠ .panicked msg)
        ∧ (∀ msg, (Exec sampleReg ⟨"sqlite3"⟩ "SELECT 1" none).outcome ≠ .panicked msg)) :=
  ⟨(first_token_in_range_iff_nonblank sampleReg ⟨"sqlite3"⟩ "  \t" none goodDB goodTx
      rfl rfl).2.2 (by decide),
    (first_token_in_range_iff_nonblank sampleReg ⟨"sqlite3"⟩ "SELECT 1" none goodDB goodTx
      rfl rfl).2.1 ⟨'S', by decide, by decide⟩⟩

end Dbtrans
